import Mathlib

/-!
Verification development for the provider's docker-mode session engine
(`gu-provider/src/dockerman.rs` with the volume model from
`gu-model/src/dockerman.rs`).

The asynchronous actor pipeline is embedded as sequential state passing:
each handler is a pure function from the actor state (`DockerMan`) and the
message to a result together with the next actor state.  External
collaborators (the container engine client, the fetch source, the HTTP
sink and the standard library's UTF-8 decoder) are modelled as an oracle
record `Engine` of pure functions; every engine call site in the source
maps to one oracle field, matching the collaborator interface list of the
design document.
-/

namespace Gu

/-- Modelled from the spec: `ResourceFormat` of `gu_model::envman` (that
crate is not part of the provided sources); one of Raw or Tar. -/
inductive ResourceFormat
  | Raw
  | Tar
deriving DecidableEq

/-- `VolumeDef` from `gu-model/src/dockerman.rs`: the only variant is a
read-write bind with a source and a target path. -/
inductive VolumeDef
  | BindRw (src : String) (target : String)
deriving DecidableEq

/-- `VolumeDef::source_dir` from `gu-model/src/dockerman.rs`. -/
def VolumeDef.source_dir : VolumeDef → Option String
  | .BindRw src _ => some src

/-- `VolumeDef.target_dir` from `gu-model/src/dockerman.rs`. -/
def VolumeDef.target_dir : VolumeDef → Option String
  | .BindRw _ target => some target

/-- Modelled from the spec: `Command` of `gu_model::envman` (missing from
the provided sources); the tagged union of session commands exactly as the
data-model section lists it and as `run_command` pattern-matches it. -/
inductive Command
  | Open
  | Close
  | Exec (executable : String) (args : List String)
  | Start (executable : String) (args : List String)
  | Stop (child_id : String)
  | DownloadFile (uri : String) (file_path : String) (format : ResourceFormat)
  | UploadFile (uri : String) (file_path : String) (format : ResourceFormat)
  | AddTags (tags : List String)
  | DelTags (tags : List String)
deriving DecidableEq

/-- Modelled from the spec: the error kinds of `gu_model::envman::Error`
(missing from the provided sources); the variants the docker backend
constructs are `UnknownEnv`, `NoSuchSession`, `IoError` and `Error`. -/
inductive Error
  | UnknownEnv (name : String)
  | NoSuchSession (id : String)
  | DuplicateSession (id : String)
  | IoError (msg : String)
  | Error (msg : String)
deriving DecidableEq

/-- Modelled from the spec: the `Display` rendering of
`gu_model::envman::Error` (missing from the provided sources).  Scenario C
of the design document fixes the `NoSuchSession` rendering to
`"Error: no such session <id>"`; the other variants follow the same
`"Error: ..."` shape. -/
def errToString : Error → String
  | .UnknownEnv name => "Error: unknown env " ++ name
  | .NoSuchSession id => "Error: no such session " ++ id
  | .DuplicateSession id => "Error: duplicate session " ++ id
  | .IoError msg => "Error: io error " ++ msg
  | .Error msg => "Error: " ++ msg

/-- Modelled from the spec: `PeerSessionStatus` of `gu_net::rpc::peer`
(missing from the provided sources); the status set
{Created, Running, Stopped, Error}.  The source only ever stores
`CREATED`. -/
inductive PeerSessionStatus
  | CREATED
  | RUNNING
  | STOPPED
  | ERROR
deriving DecidableEq

/-- Modelled from the spec: `Workspace` of `gu-provider` (missing from the
provided sources); it records volume bindings and a tag set.  Tags are
kept as a duplicate-free list in insertion order. -/
structure Workspace where
  name : String
  volumes : List VolumeDef
  tags : List String
deriving DecidableEq

/-- Modelled from the spec: `Workspace::add_volume` records one binding. -/
def Workspace.add_volume (w : Workspace) (v : VolumeDef) : Workspace :=
  { w with volumes := w.volumes ++ [v] }

/-- Modelled from the spec: `Workspace::add_tags` is set union. -/
def Workspace.add_tags (w : Workspace) (ts : List String) : Workspace :=
  { w with tags := ts.foldl (fun acc t => if t ∈ acc then acc else acc ++ [t]) w.tags }

/-- Modelled from the spec: `Workspace::remove_tags` is set difference. -/
def Workspace.remove_tags (w : Workspace) (ts : List String) : Workspace :=
  { w with tags := w.tags.filter (fun t => t ∉ ts) }

/-- The external collaborators of the docker backend, one pure oracle per
operation of the collaborator interfaces in the design document: the
container engine client (`start`, `stop`, `exec`, `archive_get`,
`archive_put`, `delete`, `pull`, `create`), the fetch source
(`download_stream`, `untar_single_file`), the HTTP sink (`http_put`,
returning a status code) and the standard library's `str::from_utf8`
(`from_utf8`, `none` on invalid bytes).  Byte streams are lists of byte
chunks. -/
structure Engine where
  start : String → Except String Unit
  stop : String → Except String Unit
  exec : String → List String → Except String (List (List Nat))
  archive_get : String → String → Except String (List (List Nat))
  archive_put : String → String → List (List Nat) → Except String Unit
  delete : String → Except String Unit
  pull : String → Except String Unit
  create : String → List String → Except String String
  download_stream : String → Except String (List (List Nat))
  untar_single_file : List (List Nat) → List (List Nat)
  http_put : String → List (List Nat) → Except String Nat
  from_utf8 : List Nat → Option String

/-- `DockerSession` from `gu-provider/src/dockerman.rs`: a workspace, a
container handle (its engine-assigned id) and a status. -/
structure DockerSession where
  workspace : Workspace
  container : String
  status : PeerSessionStatus
deriving DecidableEq

/-- `DockerMan` from `gu-provider/src/dockerman.rs`: the optional engine
client and the deploy registry.  The registry (`DeployManager`, missing
from the provided sources) is modelled from the spec as a keyed collection,
here an association list from session id to session. -/
structure DockerMan where
  docker_api : Option Engine
  deploys : List (String × DockerSession)

/-- Modelled from the spec: `DeployManager::contains_deploy`, the registry
existence check. -/
def DockerMan.contains_deploy (dm : DockerMan) (id : String) : Bool :=
  dm.deploys.any (fun p => p.1 == id)

/-- Modelled from the spec: `DeployManager::deploy_mut` lookup (read
part); `none` when the id is absent, in which case callers render the
`NoSuchSession` error. -/
def DockerMan.deploy_get (dm : DockerMan) (id : String) : Option DockerSession :=
  (dm.deploys.find? (fun p => p.1 == id)).map (fun p => p.2)

/-- Modelled from the spec: the write part of `DeployManager::deploy_mut`:
apply an update to the session stored under `id`. -/
def DockerMan.update_deploy (dm : DockerMan) (id : String)
    (f : DockerSession → DockerSession) : DockerMan :=
  { dm with deploys := dm.deploys.map (fun p => if p.1 == id then (p.1, f p.2) else p) }

/-- Modelled from the spec: `DeployManager::insert_deploy`, keyed
insertion into the registry. -/
def DockerMan.insert_deploy (dm : DockerMan) (id : String) (s : DockerSession) : DockerMan :=
  { dm with deploys := dm.deploys ++ [(id, s)] }

/-- `DockerSession::do_open`: start the container; `Ok` becomes the
acknowledgement `"OK"`, an engine error becomes its rendered message.
Note the stored `status` field is not touched. -/
def DockerSession.do_open (eng : Engine) (s : DockerSession) : Except String String :=
  match eng.start s.container with
  | .ok _ => .ok "OK"
  | .error e => .error e

/-- `DockerSession::do_close`: stop the container; `Ok` becomes `"OK"`. -/
def DockerSession.do_close (eng : Engine) (s : DockerSession) : Except String String :=
  match eng.stop s.container with
  | .ok _ => .ok "OK"
  | .error e => .error e

/-- `DockerSession::do_exec`: prepend the executable to the argument
vector, run it in the container, and fold the output chunks into one
string, appending each chunk that decodes as UTF-8 and skipping the
rest. -/
def DockerSession.do_exec (eng : Engine) (s : DockerSession)
    (executable : String) (args : List String) : Except String String :=
  match eng.exec s.container (executable :: args) with
  | .error e => .error e
  | .ok chunks =>
    .ok (chunks.foldl
      (fun acc c =>
        match eng.from_utf8 c with
        | some chunk_str => acc ++ chunk_str
        | none => acc)
      "")

/-- `DockerSession::do_download`: fetch the byte stream from `uri` and
pipe it into the container's archive-put endpoint at `file_path`; the
`format` argument is accepted but never read. -/
def DockerSession.do_download (eng : Engine) (s : DockerSession)
    (uri : String) (file_path : String) (format : ResourceFormat) : Except String String :=
  match eng.download_stream uri with
  | .error e => .error e
  | .ok chunks =>
    match eng.archive_put s.container file_path chunks with
    | .error e => .error e
    | .ok _ => .ok "OK"

/-- `DockerSession::do_upload`: fetch the tar stream of `file_path` from
the container, un-tar it to a single file when the format is `Raw`, send
it to `uri` with an HTTP PUT, and succeed exactly on a 2xx status. -/
def DockerSession.do_upload (eng : Engine) (s : DockerSession)
    (uri : String) (file_path : String) (format : ResourceFormat) : Except String String :=
  match eng.archive_get s.container file_path with
  | .error e => .error e
  | .ok data =>
    let payload : List (List Nat) :=
      match format with
      | .Raw => eng.untar_single_file data
      | .Tar => data
    match eng.http_put uri payload with
    | .error e => .error e
    | .ok status =>
      if 200 ≤ status && status < 300 then
        .ok ("\"" ++ uri ++ "\" file uploaded")
      else
        .error ("Unsuccessful file upload: " ++ toString status)

/-- Rendering of a tag list in the shape the source's debug formatting
produces inside the AddTags/DelTags success messages. -/
def formatTags (ts : List String) : String :=
  "\x7b" ++ String.intercalate ", " (ts.map (fun t => "\"" ++ t ++ "\"")) ++ "\x7d"

/-- `DockerMan::run_for_deployment`: resolve the session in the registry
and run the operation on it; an absent id yields the rendered
`NoSuchSession` error. -/
def run_for_deployment (dm : DockerMan) (deployment_id : String)
    (f : DockerSession → Except String String) : Except String String :=
  match dm.deploy_get deployment_id with
  | none => .error (errToString (.NoSuchSession deployment_id))
  | some deployment => f deployment

/-- `run_command` from `gu-provider/src/dockerman.rs`: dispatch one
command against the named session, producing the per-command result and
the next actor state (only the tag commands mutate it). -/
def run_command (dm : DockerMan) (session_id : String) (command : Command) :
    Except String String × DockerMan :=
  match dm.docker_api with
  | none => (.error "Docker API not initialized properly", dm)
  | some eng =>
    match command with
    | .Open => (run_for_deployment dm session_id (fun d => d.do_open eng), dm)
    | .Close => (run_for_deployment dm session_id (fun d => d.do_close eng), dm)
    | .Exec executable args =>
      (run_for_deployment dm session_id (fun d => d.do_exec eng executable args), dm)
    | .Start _ _ => (.ok "Start mock", dm)
    | .Stop _ => (.ok "Stop mock", dm)
    | .DownloadFile uri file_path format =>
      (run_for_deployment dm session_id (fun d => d.do_download eng uri file_path format), dm)
    | .UploadFile uri file_path format =>
      (run_for_deployment dm session_id (fun d => d.do_upload eng uri file_path format), dm)
    | .AddTags ts =>
      match dm.deploy_get session_id with
      | none => (.error (errToString (.NoSuchSession session_id)), dm)
      | some s =>
        (.ok ("tags inserted. Current tags are: " ++ formatTags (s.workspace.add_tags ts).tags),
          dm.update_deploy session_id
            (fun s0 => { s0 with workspace := s0.workspace.add_tags ts }))
    | .DelTags ts =>
      match dm.deploy_get session_id with
      | none => (.error (errToString (.NoSuchSession session_id)), dm)
      | some s =>
        (.ok ("tags removed. Current tags are: " ++ formatTags (s.workspace.remove_tags ts).tags),
          dm.update_deploy session_id
            (fun s0 => { s0 with workspace := s0.workspace.remove_tags ts }))

/-- The accumulator-threading core of `run_commands`: fold the command
list, pushing each success message; on the first failure push its error
message and stop with the accumulated list as the error outcome. -/
def run_commands_from (dm : DockerMan) (session_id : String) (acc : List String) :
    List Command → Except (List String) (List String) × DockerMan
  | [] => (.ok acc, dm)
  | c :: cs =>
    match run_command dm session_id c with
    | (.ok m, dm') => run_commands_from dm' session_id (acc ++ [m]) cs
    | (.error m, dm') => (.error (acc ++ [m]), dm')

/-- `run_commands` from `gu-provider/src/dockerman.rs`: the fail-fast fold
over the batch starting from the empty result vector. -/
def run_commands (dm : DockerMan) (session_id : String) (commands : List Command) :
    Except (List String) (List String) × DockerMan :=
  run_commands_from dm session_id [] commands

/-- `SessionUpdate` from `gu_model::envman` as used by the handler: a
session id and a command batch. -/
structure SessionUpdate where
  session_id : String
  commands : List Command

/-- `Handler<SessionUpdate> for DockerMan`: reject a session id absent
from the registry with the singleton rendered `NoSuchSession` error,
otherwise run the batch. -/
def handle_session_update (dm : DockerMan) (msg : SessionUpdate) :
    Except (List String) (List String) × DockerMan :=
  if dm.contains_deploy msg.session_id then
    run_commands dm msg.session_id msg.commands
  else
    (.error [errToString (.NoSuchSession msg.session_id)], dm)

/-- `Handler<DestroySession> for DockerMan`: with no engine client reply
`UnknownEnv("docker")`; otherwise delete the container through the engine,
mapping any engine failure to `Error("docker error")` and success to
`"done"`.  The registry is never consulted or modified. -/
def handle_destroy_session (dm : DockerMan) (session_id : String) :
    Except Error String × DockerMan :=
  match dm.docker_api with
  | none => (.error (.UnknownEnv "docker"), dm)
  | some eng =>
    match eng.delete session_id with
    | .error _ => (.error (.Error "docker error"), dm)
    | .ok _ => (.ok "done", dm)

/-- `Image` from `gu_model::envman` (missing from the provided sources),
modelled from the spec: an image uri and content hash. -/
structure Image where
  uri : String
  hash : String

/-- `CreateOptions` from `gu-model/src/dockerman.rs`. -/
structure CreateOptions where
  volumes : List VolumeDef
  cmd : Option (List String)

/-- `CreateSession` message, modelled from the spec's external interface
list: environment type, image, backend options. -/
structure CreateSession where
  env_type : String
  image : Image
  options : CreateOptions

/-- `DockerMan::binds_and_workspace`: traverse the declared volumes; each
volume with both a source and a target directory is recorded in the
workspace and contributes the engine bind string `"src:target"`.  The
workspace argument is the fresh workspace the workspace factory returns. -/
def binds_and_workspace (w : Workspace) : List VolumeDef → List String × Workspace
  | [] => ([], w)
  | vol :: rest =>
    match vol.source_dir.bind (fun s => vol.target_dir.map (fun t => (s, t))) with
    | some (s, t) =>
      let (binds, w') := binds_and_workspace (w.add_volume vol) rest
      ((s ++ ":" ++ t) :: binds, w')
    | none => binds_and_workspace w rest

/-- `Handler<CreateSession<CreateOptions>> for DockerMan`: with no engine
client reply `UnknownEnv(env_type)`; otherwise compute binds and
workspace, pull the image then create the container (both failures map to
`IoError`), and on success register a new session under the
engine-assigned container id with status `CREATED`, returning that id.
Workspace directory creation (a filesystem effect the source `expect`s to
succeed) is not modelled. -/
def handle_create_session (dm : DockerMan) (w0 : Workspace) (msg : CreateSession) :
    Except Error String × DockerMan :=
  match dm.docker_api with
  | none => (.error (.UnknownEnv msg.env_type), dm)
  | some eng =>
    let (binds, workspace) := binds_and_workspace w0 msg.options.volumes
    match eng.pull msg.image.uri with
    | .error e => (.error (.IoError e), dm)
    | .ok _ =>
      match eng.create msg.image.uri binds with
      | .error e => (.error (.IoError e), dm)
      | .ok id =>
        (.ok id, dm.insert_deploy id ⟨workspace, id, .CREATED⟩)

/-! ## Concrete fixtures

An engine oracle on which every container operation succeeds (`exec`
recognises exactly the command vector `["echo", "hi"]`, whose output chunk
decodes to `"hi"`), plus small actor states used to instantiate the
theorems. -/

/-- Oracle on which every operation succeeds; `exec` answers the command
`["echo", "hi"]` with the byte chunk `[104, 105]` (the UTF-8 bytes of
`"hi"`) and fails on anything else. -/
def okEngine : Engine where
  start _ := .ok ()
  stop _ := .ok ()
  exec _ args := if args = ["echo", "hi"] then .ok [[104, 105]] else .error "exec failed"
  archive_get _ _ := .ok [[1, 2]]
  archive_put _ _ _ := .ok ()
  delete _ := .ok ()
  pull _ := .ok ()
  create _ _ := .ok "c1"
  download_stream _ := .ok [[1, 2]]
  untar_single_file d := d
  http_put _ _ := .ok 200
  from_utf8 c := if c = [104, 105] then some "hi" else none

/-- Oracle identical to `okEngine` except that container deletion fails. -/
def failDeleteEngine : Engine :=
  { okEngine with delete := fun _ => .error "boom" }

/-- A fresh workspace as the workspace factory would hand out. -/
def wsA : Workspace := ⟨"w", [], []⟩

/-- A registered session whose container id is `"c1"`. -/
def sessA : DockerSession := ⟨wsA, "c1", .CREATED⟩

/-- Actor state with a working engine and one session `"sess1"`. -/
def dmA : DockerMan := ⟨some okEngine, [("sess1", sessA)]⟩

/-- Actor state with a working engine and an empty registry. -/
def dmEmpty : DockerMan := ⟨some okEngine, []⟩

/-- Actor state with no engine client and an empty registry. -/
def dmGhost : DockerMan := ⟨none, []⟩

/-- Actor state whose engine fails deletions, empty registry. -/
def dmFailDelete : DockerMan := ⟨some failDeleteEngine, []⟩

/-! ## Structural lemmas about the command fold -/

/-- Splitting the fail-fast fold at a list append: the suffix runs only
when the prefix fully succeeded, continuing from the prefix's accumulated
messages and state. -/
theorem run_commands_from_append (sid : String) (cs1 cs2 : List Command)
    (dm : DockerMan) (acc : List String) :
    run_commands_from dm sid acc (cs1 ++ cs2)
      = match run_commands_from dm sid acc cs1 with
        | (Except.ok msgs, dm₁) => run_commands_from dm₁ sid msgs cs2
        | (Except.error msgs, dm₁) => (Except.error msgs, dm₁) := by
  induction cs1 generalizing dm acc with
  | nil => simp [run_commands_from]
  | cons c cs ih =>
    simp only [List.cons_append, run_commands_from]
    rcases h : run_command dm sid c with ⟨r, dm'⟩
    cases r with
    | ok m => simpa using ih dm' (acc ++ [m])
    | error m => simp

/-- A fully successful fold returns one message per command on top of the
incoming accumulator. -/
theorem run_commands_from_ok_length (sid : String) (cs : List Command) :
    ∀ (dm dm' : DockerMan) (acc msgs : List String),
      run_commands_from dm sid acc cs = (.ok msgs, dm') →
      msgs.length = acc.length + cs.length := by
  induction cs with
  | nil =>
    intro dm dm' acc msgs h
    simp only [run_commands_from, Prod.mk.injEq, Except.ok.injEq] at h
    simp [← h.1]
  | cons c cs ih =>
    intro dm dm' acc msgs h
    simp only [run_commands_from] at h
    rcases h2 : run_command dm sid c with ⟨r, dm''⟩
    rw [h2] at h
    cases r with
    | ok m =>
      have := ih dm'' dm' (acc ++ [m]) msgs h
      simp at this
      simp [this]
      omega
    | error m => simp at h

/-! ## Claim theorems -/

/-- C1: when commands 1..k-1 of a batch succeed (yielding `msgs`) and
command k fails with message `em`, the batch `pre ++ [c_k] ++ post`
returns the error outcome `msgs ++ [em]` — the later commands are never
attempted (the result does not depend on `post`) — and the result has
length k since `msgs` holds one success message per prefix command. -/
theorem c1_fail_fast_partial_results
    (dm dm₁ dm₂ : DockerMan) (sid : String) (pre post : List Command) (c : Command)
    (msgs : List String) (em : String)
    (hpre : run_commands dm sid pre = (.ok msgs, dm₁))
    (hfail : run_command dm₁ sid c = (.error em, dm₂)) :
    run_commands dm sid (pre ++ c :: post) = (.error (msgs ++ [em]), dm₂)
      ∧ msgs.length = pre.length := by
  constructor
  · unfold run_commands at hpre ⊢
    rw [run_commands_from_append sid pre (c :: post) dm [], hpre]
    simp [run_commands_from, hfail]
  · simpa using run_commands_from_ok_length sid pre dm dm₁ [] msgs hpre

/-- Witness for C1: in the batch `[Open, Exec "false" [], Close]` against
the registered session, `Open` succeeds with `"OK"`, the exec fails, and
the pipeline returns the error sequence `["OK", "exec failed"]`. -/
theorem c1_fail_fast_partial_results_witness :
    run_commands dmA "sess1" ([.Open] ++ Command.Exec "false" [] :: [.Close])
        = (.error (["OK"] ++ ["exec failed"]), dmA)
      ∧ (["OK"] : List String).length = [Command.Open].length :=
  c1_fail_fast_partial_results dmA dmA dmA "sess1" [.Open] [.Close]
    (.Exec "false" []) ["OK"] "exec failed" rfl rfl

/-- C2: extending a fully successful batch by one more succeeding command
appends exactly that command's success message (so by induction the i-th
element of a successful batch's result is the i-th command's success
message), a successful batch of N commands returns N messages, and the
concrete batch `[Open, Exec "echo" ["hi"], Close]` against a valid
session returns the success sequence `["OK", "hi", "OK"]`. -/
theorem c2_successful_batch_results :
    (∀ (dm dm₁ dm₂ : DockerMan) (sid : String) (cmds : List Command) (c : Command)
        (msgs : List String) (m : String),
      run_commands dm sid cmds = (.ok msgs, dm₁) →
      run_command dm₁ sid c = (.ok m, dm₂) →
      run_commands dm sid (cmds ++ [c]) = (.ok (msgs ++ [m]), dm₂)
        ∧ msgs.length = cmds.length)
      ∧ handle_session_update dmA ⟨"sess1", [.Open, .Exec "echo" ["hi"], .Close]⟩
          = (.ok ["OK", "hi", "OK"], dmA) := by
  constructor
  · intro dm dm₁ dm₂ sid cmds c msgs m h1 h2
    constructor
    · unfold run_commands at h1 ⊢
      rw [run_commands_from_append sid cmds [c] dm [], h1]
      simp [run_commands_from, h2]
    · simpa using run_commands_from_ok_length sid cmds dm dm₁ [] msgs h1
  · rfl

/-- Witness for C2: appending `Close` to the already-successful batch
`[Open, Exec "echo" ["hi"]]` appends its success message `"OK"`. -/
theorem c2_successful_batch_results_witness :
    run_commands dmA "sess1" ([.Open, .Exec "echo" ["hi"]] ++ [.Close])
        = (.ok (["OK", "hi"] ++ ["OK"]), dmA)
      ∧ (["OK", "hi"] : List String).length = [Command.Open, Command.Exec "echo" ["hi"]].length :=
  c2_successful_batch_results.1 dmA dmA dmA "sess1" [.Open, .Exec "echo" ["hi"]]
    .Close ["OK", "hi"] "OK" rfl rfl

/-- Counterexample for C3 as stated: a `SessionUpdate` against the absent
id `"ghost"` does return the `NoSuchSession` failure immediately, but the
returned error result sequence is the singleton
`["Error: no such session ghost"]`, not the empty sequence. -/
theorem c3_counterexample :
    handle_session_update dmGhost ⟨"ghost", [.Open]⟩
        = (.error ["Error: no such session ghost"], dmGhost)
      ∧ (["Error: no such session ghost"] : List String) ≠ [] :=
  ⟨rfl, by simp⟩

/-- C3 amended: a `SessionUpdate` whose session id is absent from the
registry fails immediately — the actor state is untouched, so no command
is attempted — and the error result sequence is the one-element list
holding the rendered `NoSuchSession` message. -/
theorem c3_no_such_session_singleton (dm : DockerMan) (msg : SessionUpdate)
    (h : dm.contains_deploy msg.session_id = false) :
    handle_session_update dm msg
      = (.error [errToString (.NoSuchSession msg.session_id)], dm) := by
  unfold handle_session_update
  simp [h]

/-- Witness for C3: the registry of `dmGhost` does not contain `"ghost"`,
and the update returns the singleton error sequence. -/
theorem c3_no_such_session_singleton_witness :
    handle_session_update dmGhost ⟨"ghost", [.Open]⟩
      = (.error [errToString (.NoSuchSession "ghost")], dmGhost) :=
  c3_no_such_session_singleton dmGhost ⟨"ghost", [.Open]⟩ rfl

/-- C4, code evaluated at the failing input: destroying the registered
session `"sess1"` succeeds with `"done"`, yet the registry entry survives
(the destroy handler never touches `deploys` and never tears down the
workspace), and a subsequent `SessionUpdate` for the destroyed id still
dispatches commands instead of failing with `NoSuchSession`. -/
theorem c4_destroy_not_terminal :
    (handle_destroy_session dmA "sess1").1 = .ok "done"
      ∧ ((handle_destroy_session dmA "sess1").2).contains_deploy "sess1" = true
      ∧ (handle_session_update (handle_destroy_session dmA "sess1").2
            ⟨"sess1", [.Stop "child"]⟩).1 = .ok ["Stop mock"] :=
  ⟨rfl, rfl, rfl⟩

/-- Counterexample for C5 as stated: `DestroySession` on the absent id
`"ghost"` does not fail with `NoSuchSession` — when the engine's delete
fails it returns `Error("docker error")` (and when the delete succeeds it
even returns `Ok "done"`). -/
theorem c5_counterexample :
    (handle_destroy_session dmFailDelete "ghost").1 = .error (.Error "docker error")
      ∧ Error.Error "docker error" ≠ Error.NoSuchSession "ghost"
      ∧ (handle_destroy_session dmEmpty "ghost").1 = .ok "done" :=
  ⟨rfl, by decide, rfl⟩

/-- C5 amended: `DestroySession` never consults the registry, so for any
id (present or not) the registry is left unchanged, and the outcome is
always one of `UnknownEnv("docker")` (no engine client),
`Error("docker error")` (engine delete failed) or `Ok "done"` — never
`NoSuchSession`. -/
theorem c5_destroy_absent_registry_unchanged (dm : DockerMan) (sid : String) :
    (handle_destroy_session dm sid).2 = dm
      ∧ ((handle_destroy_session dm sid).1 = .error (.UnknownEnv "docker")
        ∨ (handle_destroy_session dm sid).1 = .error (.Error "docker error")
        ∨ (handle_destroy_session dm sid).1 = .ok "done") := by
  unfold handle_destroy_session
  cases h : dm.docker_api with
  | none => simp
  | some eng =>
    cases h2 : eng.delete sid with
    | ok u => simp [h2]
    | error e => simp [h2]

/-- Counterexample for C6 as stated: against the registered session whose
status is `CREATED`, `Open` succeeds with `"OK"` but the stored status
stays `CREATED` — it does not become `RUNNING` (the actor state is
returned unchanged). -/
theorem c6_counterexample :
    (run_command dmA "sess1" .Open).1 = .ok "OK"
      ∧ ((run_command dmA "sess1" .Open).2.deploy_get "sess1").map DockerSession.status
          = some .CREATED
      ∧ PeerSessionStatus.CREATED ≠ PeerSessionStatus.RUNNING :=
  ⟨rfl, rfl, by decide⟩

/-- C6 amended: a successful `Open` returns the acknowledgement `"OK"`,
but it never mutates the actor state — in particular the session's stored
status field is left as it was (the container backend tracks the running
state implicitly in the engine). -/
theorem c6_open_ack_status_unchanged (dm : DockerMan) (sid : String) :
    (run_command dm sid .Open).2 = dm
      ∧ (∀ m, (run_command dm sid .Open).1 = .ok m → m = "OK") := by
  unfold run_command
  cases h : dm.docker_api with
  | none => exact ⟨rfl, by intro m hm; simp at hm⟩
  | some eng =>
    refine ⟨rfl, ?_⟩
    intro m hm
    simp only [run_for_deployment] at hm
    cases h2 : dm.deploy_get sid with
    | none => rw [h2] at hm; simp at hm
    | some d =>
      rw [h2] at hm
      simp only [DockerSession.do_open] at hm
      cases h3 : eng.start d.container with
      | ok u => rw [h3] at hm; simp at hm; exact hm.symm
      | error e => rw [h3] at hm; simp at hm

/-- Witness for C6: at the concrete state, `Open` leaves the actor state
unchanged and its success message is `"OK"`. -/
theorem c6_open_ack_status_unchanged_witness :
    (run_command dmA "sess1" Command.Open).2 = dmA ∧ "OK" = "OK" :=
  ⟨(c6_open_ack_status_unchanged dmA "sess1").1,
    (c6_open_ack_status_unchanged dmA "sess1").2 "OK" rfl⟩

/-- Counterexample for C7 as stated: at a concrete engine, session, uri
and target path, `do_download` behaves identically for `Raw` and for
`Tar` — the two format values do not produce different behavior for the
same input stream. -/
theorem c7_counterexample :
    DockerSession.do_download okEngine sessA "http://x/f" "/dst" .Raw
      = DockerSession.do_download okEngine sessA "http://x/f" "/dst" .Tar :=
  rfl

/-- C7 amended: `do_download` ignores its `format` argument entirely: for
every engine, session, uri and target path the downloaded byte stream is
piped unchanged into the engine's archive-put endpoint, with the same
outcome for `Raw` and `Tar` (only `do_upload` differentiates formats). -/
theorem c7_download_ignores_format (eng : Engine) (s : DockerSession)
    (uri file_path : String) (f1 f2 : ResourceFormat) :
    DockerSession.do_download eng s uri file_path f1
      = DockerSession.do_download eng s uri file_path f2 :=
  rfl

/-- Every declared volume is a read-write bind carrying both a source and
a target directory, so the traversal records each one in the workspace in
order and emits its `"src:target"` bind string. -/
theorem binds_and_workspace_eq (vols : List VolumeDef) :
    ∀ (w : Workspace),
      binds_and_workspace w vols
        = (vols.map (fun v => match v with | .BindRw s t => s ++ ":" ++ t),
           { w with volumes := w.volumes ++ vols }) := by
  induction vols with
  | nil => intro w; simp [binds_and_workspace]
  | cons v vols ih =>
    intro w
    cases v with
    | BindRw s t =>
      simp [binds_and_workspace, VolumeDef.source_dir, VolumeDef.target_dir,
        ih, Workspace.add_volume]

/-- C8: every volume (all of which carry both a source and a target
directory) is recorded in the workspace and contributes the bind string
`"src:target"`; in the concrete scenario with the single bind volume
`{src:"/host/data", target:"/workspace/data"}` the bind string passed to
the engine is `"/host/data:/workspace/data"`, and the session that a
successful `CreateSession` registers carries exactly that one volume in
its workspace. -/
theorem c8_create_session_binds :
    (∀ (w : Workspace) (vols : List VolumeDef),
      binds_and_workspace w vols
        = (vols.map (fun v => match v with | .BindRw s t => s ++ ":" ++ t),
           { w with volumes := w.volumes ++ vols }))
      ∧ binds_and_workspace wsA [.BindRw "/host/data" "/workspace/data"]
          = (["/host/data:/workspace/data"],
             ⟨"w", [.BindRw "/host/data" "/workspace/data"], []⟩)
      ∧ (handle_create_session dmEmpty wsA
            ⟨"docker", ⟨"img", "h"⟩, ⟨[.BindRw "/host/data" "/workspace/data"], none⟩⟩).1
          = .ok "c1"
      ∧ ((handle_create_session dmEmpty wsA
            ⟨"docker", ⟨"img", "h"⟩, ⟨[.BindRw "/host/data" "/workspace/data"], none⟩⟩).2).deploy_get
            "c1"
          = some ⟨⟨"w", [.BindRw "/host/data" "/workspace/data"], []⟩, "c1", .CREATED⟩ :=
  ⟨fun w vols => binds_and_workspace_eq vols w, rfl, rfl, rfl⟩

/-- C9: a `SessionUpdate` with an empty command batch against a session
present in the registry returns the success outcome with an empty result
sequence and leaves the actor state (registry, workspaces, tags,
statuses) unchanged. -/
theorem c9_empty_batch_noop (dm : DockerMan) (sid : String)
    (h : dm.contains_deploy sid = true) :
    handle_session_update dm ⟨sid, []⟩ = (.ok [], dm) := by
  unfold handle_session_update
  simp [h, run_commands, run_commands_from]

/-- Witness for C9: the concrete state contains `"sess1"` and the empty
batch returns `Ok []` leaving the state unchanged. -/
theorem c9_empty_batch_noop_witness :
    handle_session_update dmA ⟨"sess1", []⟩ = (.ok [], dmA) :=
  c9_empty_batch_noop dmA "sess1" rfl

/-- C10: with the engine client initialized (which holds whenever any
session exists, since sessions are only ever registered by the
create-session handler running with a client), `Start` and `Stop`
commands always succeed with the fixed strings `"Start mock"` and
`"Stop mock"`, and return the actor state unchanged — independent of the
session id and of the registry contents, so no workspace, tag, status,
registry entry or child process is touched. -/
theorem c10_start_stop_mocks (dm : DockerMan) (sid : String)
    (executable : String) (args : List String) (child_id : String) (eng : Engine)
    (h : dm.docker_api = some eng) :
    run_command dm sid (.Start executable args) = (.ok "Start mock", dm)
      ∧ run_command dm sid (.Stop child_id) = (.ok "Stop mock", dm) := by
  unfold run_command
  rw [h]
  exact ⟨rfl, rfl⟩

/-- Witness for C10: at the concrete state with a registered session,
`Start` and `Stop` return their mock acknowledgements and leave the state
unchanged. -/
theorem c10_start_stop_mocks_witness :
    run_command dmA "sess1" (Command.Start "ls" ["-l"]) = (.ok "Start mock", dmA)
      ∧ run_command dmA "sess1" (Command.Stop "child7") = (.ok "Stop mock", dmA) :=
  c10_start_stop_mocks dmA "sess1" "ls" ["-l"] "child7" okEngine rfl

end Gu
